import Mathlib

/-!
Verification of the put-credit-spread reconstruction of
`SchwabClient.getPutCreditSpreads` (src/schwabClient.ts, lines 317-398).

The method fetches the account list and then runs a pure reconstruction over
each account's position list.  The embedding below reproduces that pure part
with the fetched accounts passed explicitly:

* option symbols are strings; the two JavaScript regular expressions used by
  the code (`/^(\w+)\s*(\d{6})([PC])(\d+)$/` for grouping and
  `/(\d{6})P(\d+)$/` for leg/strike extraction) are modelled by executable
  functions on the symbol's character list;
* JavaScript numbers (quantities, average prices, strikes) are modelled as
  exact rationals `ℚ`;
* `new Date(year, monthIndex, day)` — the local-time `Date` constructor used
  at line 380 — is modelled by the record of its three arguments.
-/

namespace Schwab

/-- `[0-9]`: the character class `\d` of JavaScript regular expressions. -/
def isDigitChar (c : Char) : Bool := '0' ≤ c && c ≤ '9'

/-- `[A-Za-z0-9_]`: the character class `\w` of JavaScript regular
expressions. -/
def isWordChar (c : Char) : Bool :=
  ('a' ≤ c && c ≤ 'z') || ('A' ≤ c && c ≤ 'Z') || isDigitChar c || c = '_'

/-- The character class `\s` of JavaScript regular expressions (ASCII
whitespace together with the Unicode space separators, NEL is excluded,
plus U+FEFF). -/
def isSpaceChar (c : Char) : Bool :=
  c = ' ' || c = '\t' || c = '\n' || c = '\r' ||
  c.toNat = 0x0b || c.toNat = 0x0c || c.toNat = 0xa0 || c.toNat = 0x1680 ||
  (0x2000 ≤ c.toNat && c.toNat ≤ 0x200a) || c.toNat = 0x2028 ||
  c.toNat = 0x2029 || c.toNat = 0x202f || c.toNat = 0x205f ||
  c.toNat = 0x3000 || c.toNat = 0xfeff

/-- Value of JavaScript `parseInt` on its argument.  Every call site in
`getPutCreditSpreads` (lines 360, 366, 377-379) applies `parseInt` to an
all-digit regex capture or slice of one, where `parseInt` is plain decimal
evaluation. -/
def parseIntDigits (s : List Char) : Nat :=
  s.foldl (fun a c => 10 * a + (c.toNat - 48)) 0

/-- The capture groups of `/^(\w+)\s*(\d{6})([PC])(\d+)$/` (line 338):
underlying, 6-digit expiry code, put/call marker, strike digits. -/
structure OptionSymbolMatch where
  underlying : List Char
  expiryKey : List Char
  marker : Char
  strikeDigits : List Char
deriving DecidableEq

/-- Model of `/^(\w+)\s*(\d{6})([PC])(\d+)$/.exec(symbol)` (line 338).

The regex matches a string `s` exactly when `s = w ++ sp ++ d6 ++ [m] ++ k`
with `w` nonempty word characters, `sp` whitespace, `d6` six digits,
`m ∈ {P, C}` and `k` nonempty digits; that decomposition is unique (the `\d+`
group must be the maximal trailing digit run, because the character before it
is `P` or `C`, never a digit; everything to its left is then forced), so the
match can be computed from the right end of the string. -/
def execOptionSymbolRegex (s : String) : Option OptionSymbolMatch :=
  match s.data.reverse.drop (s.data.reverse.takeWhile isDigitChar).length with
  | [] => none
  | m :: rest =>
    if (m == 'P' || m == 'C') &&
        !(s.data.reverse.takeWhile isDigitChar).isEmpty then
      if (rest.take 6).length == 6 && (rest.take 6).all isDigitChar then
        if !((rest.drop 6).drop
              ((rest.drop 6).takeWhile isSpaceChar).length).isEmpty &&
            ((rest.drop 6).drop
              ((rest.drop 6).takeWhile isSpaceChar).length).all isWordChar then
          some ⟨((rest.drop 6).drop
                  ((rest.drop 6).takeWhile isSpaceChar).length).reverse,
                (rest.take 6).reverse, m,
                (s.data.reverse.takeWhile isDigitChar).reverse⟩
        else none
      else none
    else none

/-- The capture groups of `/(\d{6})P(\d+)$/` (lines 358 and 364): 6-digit
expiry code and strike digits. -/
structure PutLegMatch where
  expiryKey : List Char
  strikeDigits : List Char
deriving DecidableEq

/-- Model of `/(\d{6})P(\d+)$/.exec(symbol)` (lines 358 and 364).  As for
`execOptionSymbolRegex`, the `(\d+)$` group must be the maximal trailing
digit run of the string (the character before it is the literal `P`, not a
digit), so the unanchored match is unique and computed from the right end. -/
def execPutLegRegex (s : String) : Option PutLegMatch :=
  match s.data.reverse.drop (s.data.reverse.takeWhile isDigitChar).length with
  | [] => none
  | m :: rest =>
    if m == 'P' && !(s.data.reverse.takeWhile isDigitChar).isEmpty then
      if (rest.take 6).length == 6 && (rest.take 6).all isDigitChar then
        some ⟨(rest.take 6).reverse,
              (s.data.reverse.takeWhile isDigitChar).reverse⟩
      else none
    else none

/-- The fields of a position's `instrument` that `getPutCreditSpreads` reads
(`SchwabPosition.instrument` in schwabApiTypes.ts; `underlyingSymbol` is
optional there, and the remaining fields are never read by this method). -/
structure Instrument where
  assetType : String
  symbol : String
  underlyingSymbol : Option String
deriving DecidableEq

/-- The fields of `SchwabPosition` (schwabApiTypes.ts) that
`getPutCreditSpreads` reads.  JavaScript numbers are modelled as exact
rationals. -/
structure SchwabPosition where
  shortQuantity : ℚ
  longQuantity : ℚ
  averagePrice : ℚ
  instrument : Instrument
deriving DecidableEq

/-- The `securitiesAccount` part of a fetched account: its position list. -/
structure SecuritiesAccount where
  positions : List SchwabPosition
deriving DecidableEq

/-- One fetched `SchwabAccount` (schwabApiTypes.ts). -/
structure SchwabAccount where
  securitiesAccount : SecuritiesAccount
deriving DecidableEq

/-- The value `new Date(year, monthIndex, day)` built at line 380, recorded
as the three arguments of that call.  `new Date(y, m, d)` is the JavaScript
local-time constructor (its `monthIndex` argument is zero-indexed); the
UTC-based construction would instead be `new Date(Date.UTC(y, m, d))`, a
different expression, so the constructor choice is part of this value. -/
structure JsLocalDate where
  year : Int
  monthIndex : Int
  day : Int
deriving DecidableEq

/-- The fields of the emitted spread record (`ExistingSpread`/
`PutCreditSpread` in types.ts) that lines 382-390 populate. -/
structure PutCreditSpread where
  underlying : String
  expiry : JsLocalDate
  shortStrike : ℚ
  longStrike : ℚ
  credit : ℚ
  quantity : ℚ
  theoreticalMaxLossPts : ℚ
deriving DecidableEq

/-- Lines 377-380: the expiry calendar date decoded from the 6-digit YYMMDD
code at emission time: `year = 2000 + parseInt(expiryKey.slice(0, 2))`,
`month = parseInt(expiryKey.slice(2, 4)) - 1`,
`day = parseInt(expiryKey.slice(4, 6))`, assembled with
`new Date(year, month, day)`. -/
def parseExpiryDate (expiryKey : String) : JsLocalDate :=
  { year := 2000 + (parseIntDigits (expiryKey.data.take 2) : Int)
    monthIndex := (parseIntDigits ((expiryKey.data.drop 2).take 2) : Int) - 1
    day := (parseIntDigits ((expiryKey.data.drop 4).take 2) : Int) }

/-- `byExpiry.set(expiryKey, existing)` on the insertion-ordered JavaScript
`Map` (lines 343-345): appending a position to an existing key's bucket keeps
the key's place in iteration order, a new key goes to the end. -/
def insertGroup (key : String) (pos : SchwabPosition) :
    List (String × List SchwabPosition) → List (String × List SchwabPosition)
  | [] => [(key, [pos])]
  | (k, ps) :: rest =>
    if k = key then (k, ps ++ [pos]) :: rest
    else (k, ps) :: insertGroup key pos rest

/-- One iteration of the grouping loop (lines 334-346): a position whose
symbol does not match `/^(\w+)\s*(\d{6})([PC])(\d+)$/` is skipped
(`if (!match) continue`), the rest are appended to their expiry code's
bucket.  The `if (!expiryKey) continue` guard never fires, since the capture
is always six digits when the regex matches. -/
def groupStep (m : List (String × List SchwabPosition))
    (pos : SchwabPosition) : List (String × List SchwabPosition) :=
  match execOptionSymbolRegex pos.instrument.symbol with
  | none => m
  | some mt => insertGroup (String.mk mt.expiryKey) pos m

/-- Lines 333-346: group the filtered option positions by the 6-digit expiry
capture of `/^(\w+)\s*(\d{6})([PC])(\d+)$/`. -/
def groupByExpiry (optionPositions : List SchwabPosition) :
    List (String × List SchwabPosition) :=
  optionPositions.foldl groupStep []

/-- Line 350-352: `puts`, the group members whose symbol contains the
character `P` (`symbol.includes("P")`). -/
def putsOf (expiryPositions : List SchwabPosition) : List SchwabPosition :=
  expiryPositions.filter (fun p => p.instrument.symbol.data.contains 'P')

/-- Line 354: `shortPuts`, the `puts` with `shortQuantity > 0`. -/
def shortPutsOf (expiryPositions : List SchwabPosition) : List SchwabPosition :=
  (putsOf expiryPositions).filter (fun p => decide (0 < p.shortQuantity))

/-- Line 355: `longPuts`, the `puts` with `longQuantity > 0`. -/
def longPutsOf (expiryPositions : List SchwabPosition) : List SchwabPosition :=
  (putsOf expiryPositions).filter (fun p => decide (0 < p.longQuantity))

/-- Lines 357-393: the body of the `for (const [expiryKey, expiryPositions]
of byExpiry)` loop.  Every short put is paired with every long put whose
strike (trailing digits of the symbol, `parseInt`, divided by 1000) is
strictly lower; a leg whose symbol fails `/(\d{6})P(\d+)$/` is skipped
(`continue`). -/
def spreadsForGroup (symbol expiryKey : String)
    (expiryPositions : List SchwabPosition) : List PutCreditSpread :=
  (shortPutsOf expiryPositions).flatMap (fun shortPut =>
    match execPutLegRegex shortPut.instrument.symbol with
    | none => []
    | some sm =>
      let shortStrike : ℚ := (parseIntDigits sm.strikeDigits : ℚ) / 1000
      (longPutsOf expiryPositions).flatMap (fun longPut =>
        match execPutLegRegex longPut.instrument.symbol with
        | none => []
        | some lm =>
          let longStrike : ℚ := (parseIntDigits lm.strikeDigits : ℚ) / 1000
          if longStrike < shortStrike then
            let quantity := min shortPut.shortQuantity longPut.longQuantity
            let width := shortStrike - longStrike
            let credit := shortPut.averagePrice - longPut.averagePrice
            [{ underlying := symbol
               expiry := parseExpiryDate expiryKey
               shortStrike := shortStrike
               longStrike := longStrike
               credit := credit
               quantity := quantity
               theoreticalMaxLossPts := width - credit }]
          else []))

/-- Lines 326-330: the positions of one account kept for reconstruction:
`assetType === "OPTION"` and `underlyingSymbol === symbol` (an absent
`underlyingSymbol` never equals the target string). -/
def filterOptionPositions (symbol : String)
    (positions : List SchwabPosition) : List SchwabPosition :=
  positions.filter (fun pos =>
    pos.instrument.assetType == "OPTION" &&
      pos.instrument.underlyingSymbol == some symbol)

/-- Lines 324-395: the body of the `for (const account of accounts)` loop:
filter the account's positions, group by expiry, and emit each group's
spreads in order. -/
def accountSpreads (symbol : String) (account : SchwabAccount) :
    List PutCreditSpread :=
  (groupByExpiry
      (filterOptionPositions symbol account.securitiesAccount.positions)).flatMap
    (fun g => spreadsForGroup symbol g.1 g.2)

/-- `SchwabClient.getPutCreditSpreads(symbol)` (lines 317-398) with the
fetched account list passed explicitly: the reconstruction pushes each
account's spreads into one flat result list, in account order. -/
def getPutCreditSpreads (accounts : List SchwabAccount) (symbol : String) :
    List PutCreditSpread :=
  accounts.flatMap (accountSpreads symbol)

/-!  An instrumented copy of the reconstruction that also records, for each
emitted spread, the expiry-group key and the two positions it was built from.
`spreads_eq_legSpreads` below proves that projecting away the extra fields
gives back `getPutCreditSpreads`, so statements about a spread's generating
legs are statements about the code. -/

/-- An emitted spread together with its expiry-group key and its generating
short and long leg positions. -/
structure SpreadLeg where
  expiryKey : String
  shortLeg : SchwabPosition
  longLeg : SchwabPosition
  spread : PutCreditSpread
deriving DecidableEq

/-- `spreadsForGroup` with the group key and the generating legs recorded. -/
def legSpreadsForGroup (symbol expiryKey : String)
    (expiryPositions : List SchwabPosition) : List SpreadLeg :=
  (shortPutsOf expiryPositions).flatMap (fun shortPut =>
    match execPutLegRegex shortPut.instrument.symbol with
    | none => []
    | some sm =>
      let shortStrike : ℚ := (parseIntDigits sm.strikeDigits : ℚ) / 1000
      (longPutsOf expiryPositions).flatMap (fun longPut =>
        match execPutLegRegex longPut.instrument.symbol with
        | none => []
        | some lm =>
          let longStrike : ℚ := (parseIntDigits lm.strikeDigits : ℚ) / 1000
          if longStrike < shortStrike then
            let quantity := min shortPut.shortQuantity longPut.longQuantity
            let width := shortStrike - longStrike
            let credit := shortPut.averagePrice - longPut.averagePrice
            [{ expiryKey := expiryKey
               shortLeg := shortPut
               longLeg := longPut
               spread :=
                 { underlying := symbol
                   expiry := parseExpiryDate expiryKey
                   shortStrike := shortStrike
                   longStrike := longStrike
                   credit := credit
                   quantity := quantity
                   theoreticalMaxLossPts := width - credit } }]
          else []))

/-- `accountSpreads` with the group key and the generating legs recorded. -/
def accountLegSpreads (symbol : String) (account : SchwabAccount) :
    List SpreadLeg :=
  (groupByExpiry
      (filterOptionPositions symbol account.securitiesAccount.positions)).flatMap
    (fun g => legSpreadsForGroup symbol g.1 g.2)

/-- `getPutCreditSpreads` with the group key and the generating legs
recorded. -/
def legSpreads (accounts : List SchwabAccount) (symbol : String) :
    List SpreadLeg :=
  accounts.flatMap (accountLegSpreads symbol)

/-!  Spec-side description of the reconstruction, following the wording of
claim C1 / spec §4.1 steps 5-6: within an expiry group, a put leg is a
position whose symbol parses under the put-leg pattern; every short put leg
(`shortQuantity > 0`) pairs with every long put leg (`longQuantity > 0`)
whose strike is strictly lower, and each valid pair emits exactly one Spread
with `quantity = min(short.shortQuantity, long.longQuantity)`,
`credit = short.averagePrice - long.averagePrice`, and
`theoreticalMaxLossPts = (shortStrike - longStrike) - credit`. -/

/-- Spec side: a position is a put leg when its option symbol parses under
the put-leg pattern `/(\d{6})P(\d+)$/`. -/
def isPutLeg (p : SchwabPosition) : Bool :=
  (execPutLegRegex p.instrument.symbol).isSome

/-- Spec side: the one Spread a (short leg, long leg) pair yields, per the
formulas of claim C1, or `none` when a symbol does not parse or the long
strike is not strictly below the short strike. -/
def specPairSpread (symbol expiryKey : String)
    (shortLeg longLeg : SchwabPosition) : Option PutCreditSpread :=
  match execPutLegRegex shortLeg.instrument.symbol,
        execPutLegRegex longLeg.instrument.symbol with
  | some sm, some lm =>
    if (parseIntDigits lm.strikeDigits : ℚ) / 1000 <
        (parseIntDigits sm.strikeDigits : ℚ) / 1000 then
      some { underlying := symbol
             expiry := parseExpiryDate expiryKey
             shortStrike := (parseIntDigits sm.strikeDigits : ℚ) / 1000
             longStrike := (parseIntDigits lm.strikeDigits : ℚ) / 1000
             credit := shortLeg.averagePrice - longLeg.averagePrice
             quantity := min shortLeg.shortQuantity longLeg.longQuantity
             theoreticalMaxLossPts :=
               ((parseIntDigits sm.strikeDigits : ℚ) / 1000 -
                   (parseIntDigits lm.strikeDigits : ℚ) / 1000) -
                 (shortLeg.averagePrice - longLeg.averagePrice) }
    else none
  | _, _ => none

/-- Spec side: one expiry group's output is exactly one Spread per valid
(short put leg, long put leg) pair, in pair order. -/
def specGroupSpreads (symbol expiryKey : String)
    (ps : List SchwabPosition) : List PutCreditSpread :=
  (ps.filter (fun p => isPutLeg p && decide (0 < p.shortQuantity))).flatMap
    (fun s =>
      (ps.filter (fun p => isPutLeg p && decide (0 < p.longQuantity))).filterMap
        (specPairSpread symbol expiryKey s))

/-- Spec side: the whole reconstruction — filter each account's positions to
options on the target underlying, group them by expiry code, and emit each
group's pair spreads. -/
def specReconstruct (accounts : List SchwabAccount) (symbol : String) :
    List PutCreditSpread :=
  accounts.flatMap (fun account =>
    (groupByExpiry
        (filterOptionPositions symbol account.securitiesAccount.positions)).flatMap
      (fun g => specGroupSpreads symbol g.1 g.2))

/-- Spec side (claim C3): a position is a call option when its symbol parses
under `/^(\w+)\s*(\d{6})([PC])(\d+)$/` with marker `C`. -/
def isCallOption (p : SchwabPosition) : Bool :=
  match execOptionSymbolRegex p.instrument.symbol with
  | some m => m.marker == 'C'
  | none => false

/-!  Concrete scenario data from spec §8 and the claims. -/

/-- Spec §8 concrete scenario: the short leg —
`SPX   241220P05900000`, shortQuantity 1, averagePrice 12.50. -/
def spxShortLeg : SchwabPosition :=
  { shortQuantity := 1, longQuantity := 0, averagePrice := 12.50,
    instrument := { assetType := "OPTION", symbol := "SPX   241220P05900000",
                    underlyingSymbol := some "SPX" } }

/-- Spec §8 concrete scenario: the long leg —
`SPX   241220P05800000`, longQuantity 1, averagePrice 7.00. -/
def spxLongLeg : SchwabPosition :=
  { shortQuantity := 0, longQuantity := 1, averagePrice := 7.00,
    instrument := { assetType := "OPTION", symbol := "SPX   241220P05800000",
                    underlyingSymbol := some "SPX" } }

/-- Spec §8 concrete scenario: one account holding the two legs. -/
def spxAccounts : List SchwabAccount := [⟨⟨[spxShortLeg, spxLongLeg]⟩⟩]

/-- The Spread the spec expects for the §8 scenario. -/
def spxSpread : PutCreditSpread :=
  { underlying := "SPX", expiry := ⟨2024, 11, 20⟩, shortStrike := 5900,
    longStrike := 5800, credit := 5.50, quantity := 1,
    theoreticalMaxLossPts := 94.50 }

/-- Claim C6 scenario: second short leg at strike 5950
(`SPX   241220P05950000`, shortQuantity 1, averagePrice 15). -/
def spxShortLeg2 : SchwabPosition :=
  { shortQuantity := 1, longQuantity := 0, averagePrice := 15,
    instrument := { assetType := "OPTION", symbol := "SPX   241220P05950000",
                    underlyingSymbol := some "SPX" } }

/-- Claim C6 scenario: one account holding two short legs (strikes 5900 and
5950) and one long leg (strike 5800), all on expiry code 241220. -/
def spxAccounts2 : List SchwabAccount :=
  [⟨⟨[spxShortLeg, spxShortLeg2, spxLongLeg]⟩⟩]

/-- Claim C8 scenario: a put position holding both a short and a long
quantity at strike 5850 (`SPX   241220P05850000`, shortQuantity 2,
longQuantity 3, averagePrice 9). -/
def spxDualLeg : SchwabPosition :=
  { shortQuantity := 2, longQuantity := 3, averagePrice := 9,
    instrument := { assetType := "OPTION", symbol := "SPX   241220P05850000",
                    underlyingSymbol := some "SPX" } }

/-- Claim C8 scenario: one account holding a short leg at 5900, the
dual-role position at 5850, and a long leg at 5800. -/
def spxAccounts3 : List SchwabAccount :=
  [⟨⟨[spxShortLeg, spxDualLeg, spxLongLeg]⟩⟩]

/-- The Spread expected for the 5950/5800 pair of the C6 scenario. -/
def spxSpread2 : PutCreditSpread :=
  { underlying := "SPX", expiry := ⟨2024, 11, 20⟩, shortStrike := 5950,
    longStrike := 5800, credit := 8, quantity := 1,
    theoreticalMaxLossPts := 142 }

/-- The Spread expected for the 5900-short/5850-long pair of the C8
scenario. -/
def spxSpreadAB : PutCreditSpread :=
  { underlying := "SPX", expiry := ⟨2024, 11, 20⟩, shortStrike := 5900,
    longStrike := 5850, credit := 3.50, quantity := 1,
    theoreticalMaxLossPts := 46.50 }

/-- The Spread expected for the 5850-short/5800-long pair of the C8
scenario. -/
def spxSpreadBC : PutCreditSpread :=
  { underlying := "SPX", expiry := ⟨2024, 11, 20⟩, shortStrike := 5850,
    longStrike := 5800, credit := 2, quantity := 1,
    theoreticalMaxLossPts := 48 }

/-- Claim C4 witness data: an option-typed position on the target underlying
whose symbol does not match the fixed encoding pattern. -/
def spxBadLeg : SchwabPosition :=
  { shortQuantity := 1, longQuantity := 0, averagePrice := 3,
    instrument := { assetType := "OPTION", symbol := "SPX-BAD",
                    underlyingSymbol := some "SPX" } }

/-- Claim C7 witness data: an account holding only a non-option position. -/
def equityAccounts : List SchwabAccount :=
  [⟨⟨[{ shortQuantity := 0, longQuantity := 10, averagePrice := 100,
        instrument := { assetType := "EQUITY", symbol := "SPX",
                        underlyingSymbol := some "SPX" } }]⟩⟩]

lemma spreadsForGroup_eq_map (symbol expiryKey : String)
    (expiryPositions : List SchwabPosition) :
    spreadsForGroup symbol expiryKey expiryPositions =
      (legSpreadsForGroup symbol expiryKey expiryPositions).map
        SpreadLeg.spread := by
  unfold spreadsForGroup legSpreadsForGroup
  rw [List.map_flatMap]
  refine List.flatMap_congr (fun shortPut _ => ?_)
  cases execPutLegRegex shortPut.instrument.symbol with
  | none => simp
  | some sm =>
    simp only [List.map_flatMap]
    refine List.flatMap_congr (fun longPut _ => ?_)
    cases execPutLegRegex longPut.instrument.symbol with
    | none => simp
    | some lm =>
      by_cases h : (parseIntDigits lm.strikeDigits : ℚ) / 1000 <
          (parseIntDigits sm.strikeDigits : ℚ) / 1000 <;>
        simp [h]

/-- Projection lemma: forgetting the recorded group keys and legs recovers
the output of `getPutCreditSpreads`. -/
lemma spreads_eq_legSpreads (accounts : List SchwabAccount) (symbol : String) :
    getPutCreditSpreads accounts symbol =
      (legSpreads accounts symbol).map SpreadLeg.spread := by
  unfold getPutCreditSpreads legSpreads
  rw [List.map_flatMap]
  refine List.flatMap_congr (fun account _ => ?_)
  unfold accountSpreads accountLegSpreads
  rw [List.map_flatMap]
  exact List.flatMap_congr (fun g _ => spreadsForGroup_eq_map symbol g.1 g.2)

/-- A symbol accepted by `/(\d{6})P(\d+)$/` contains the character `P`, so a
position it accepts always passes the `symbol.includes("P")` filter of line
351. -/
lemma contains_P_of_putLeg {s : String} {pm : PutLegMatch}
    (h : execPutLegRegex s = some pm) : s.data.contains 'P' = true := by
  refine List.elem_eq_true_of_mem ?_
  unfold execPutLegRegex at h
  rcases hcase : s.data.reverse.drop
      (s.data.reverse.takeWhile isDigitChar).length with _ | ⟨c, rest⟩ <;>
    rw [hcase] at h
  · exact absurd h (by simp)
  · simp only [] at h
    split at h
    · rename_i hcond
      have hc : c = 'P' := by
        have := ((Bool.and_eq_true _ _).mp hcond).1
        simpa using this
      subst hc
      have hmem : 'P' ∈ s.data.reverse.drop
          (s.data.reverse.takeWhile isDigitChar).length := by
        rw [hcase]; exact List.mem_cons_self ..
      exact List.mem_reverse.mp (List.mem_of_mem_drop hmem)
    · exact absurd h (by simp)

/-- A symbol accepted by `/(\d{6})P(\d+)$/` has `P`, not `C`, as the marker
capture of `/^(\w+)\s*(\d{6})([PC])(\d+)$/`: both matches sit at the maximal
trailing digit run, so they see the same marker character. -/
lemma marker_P_of_putLeg {s : String} {pm : PutLegMatch}
    {om : OptionSymbolMatch} (hp : execPutLegRegex s = some pm)
    (ho : execOptionSymbolRegex s = some om) : om.marker = 'P' := by
  unfold execPutLegRegex at hp
  unfold execOptionSymbolRegex at ho
  rcases hcase : s.data.reverse.drop
      (s.data.reverse.takeWhile isDigitChar).length with _ | ⟨c, rest⟩ <;>
    rw [hcase] at hp ho
  · exact absurd hp (by simp)
  · simp only [] at hp ho
    have hc : c = 'P' := by
      split at hp
      · rename_i hcond
        have := ((Bool.and_eq_true _ _).mp hcond).1
        simpa using this
      · exact absurd hp (by simp)
    subst hc
    split at ho
    · split at ho
      · split at ho
        · cases ho; rfl
        · exact absurd ho (by simp)
      · exact absurd ho (by simp)
    · exact absurd ho (by simp)

/-- Unpacking membership in `legSpreads`: each recorded entry comes from one
account and one expiry group of that account. -/
lemma mem_legSpreads {accounts : List SchwabAccount} {symbol : String}
    {t : SpreadLeg} (ht : t ∈ legSpreads accounts symbol) :
    ∃ account ∈ accounts,
      ∃ g ∈ groupByExpiry
          (filterOptionPositions symbol account.securitiesAccount.positions),
        t ∈ legSpreadsForGroup symbol g.1 g.2 := by
  unfold legSpreads accountLegSpreads at ht
  rw [List.mem_flatMap] at ht
  obtain ⟨account, ha, ht⟩ := ht
  rw [List.mem_flatMap] at ht
  obtain ⟨g, hgm, ht⟩ := ht
  exact ⟨account, ha, g, hgm, ht⟩

/-- Soundness of one recorded entry: its legs are members of the group's
short-put and long-put lists, both leg symbols are accepted by
`/(\d{6})P(\d+)$/`, the strikes compare strictly, and the spread's fields are
the code's formulas over the two legs. -/
lemma mem_legSpreadsForGroup {symbol expiryKey : String}
    {ps : List SchwabPosition} {t : SpreadLeg}
    (ht : t ∈ legSpreadsForGroup symbol expiryKey ps) :
    t.shortLeg ∈ shortPutsOf ps ∧ t.longLeg ∈ longPutsOf ps ∧
      ∃ sm lm, execPutLegRegex t.shortLeg.instrument.symbol = some sm ∧
        execPutLegRegex t.longLeg.instrument.symbol = some lm ∧
        t.expiryKey = expiryKey ∧
        (parseIntDigits lm.strikeDigits : ℚ) / 1000 <
          (parseIntDigits sm.strikeDigits : ℚ) / 1000 ∧
        t.spread =
          { underlying := symbol
            expiry := parseExpiryDate expiryKey
            shortStrike := (parseIntDigits sm.strikeDigits : ℚ) / 1000
            longStrike := (parseIntDigits lm.strikeDigits : ℚ) / 1000
            credit := t.shortLeg.averagePrice - t.longLeg.averagePrice
            quantity := min t.shortLeg.shortQuantity t.longLeg.longQuantity
            theoreticalMaxLossPts :=
              ((parseIntDigits sm.strikeDigits : ℚ) / 1000 -
                  (parseIntDigits lm.strikeDigits : ℚ) / 1000) -
                (t.shortLeg.averagePrice - t.longLeg.averagePrice) } := by
  unfold legSpreadsForGroup at ht
  rw [List.mem_flatMap] at ht
  obtain ⟨shortPut, hshort, ht⟩ := ht
  cases hsm : execPutLegRegex shortPut.instrument.symbol with
  | none => rw [hsm] at ht; exact absurd ht (by simp)
  | some sm =>
    rw [hsm] at ht
    simp only [List.mem_flatMap] at ht
    obtain ⟨longPut, hlong, ht⟩ := ht
    cases hlm : execPutLegRegex longPut.instrument.symbol with
    | none => rw [hlm] at ht; exact absurd ht (by simp)
    | some lm =>
      rw [hlm] at ht
      simp only at ht
      by_cases hlt : (parseIntDigits lm.strikeDigits : ℚ) / 1000 <
          (parseIntDigits sm.strikeDigits : ℚ) / 1000
      · rw [if_pos hlt] at ht
        rw [List.mem_singleton] at ht
        subst ht
        exact ⟨hshort, hlong, sm, lm, hsm, hlm, rfl, hlt, rfl⟩
      · rw [if_neg hlt] at ht
        exact absurd ht (by simp)

/-- Restricting a `flatMap` to the elements passing a filter loses nothing
when the function sends every filtered-out element to `[]`. -/
lemma flatMap_filter_eq {α β : Type} (l : List α) (q : α → Bool)
    (f : α → List β) (hf : ∀ a, q a = false → f a = []) :
    l.flatMap f = (l.filter q).flatMap f := by
  induction l with
  | nil => rfl
  | cons a l ih =>
    rw [List.flatMap_cons, List.filter_cons]
    cases hq : q a
    · rw [hf a hq, ih]; rfl
    · rw [if_pos rfl, List.flatMap_cons, ih]

/-- A `flatMap` whose function returns zero-or-one-element lists is a
`filterMap`. -/
lemma flatMap_eq_filterMap {α β : Type} (l : List α) (f : α → List β)
    (g : α → Option β) (hf : ∀ a ∈ l, f a = (g a).toList) :
    l.flatMap f = l.filterMap g := by
  induction l with
  | nil => rfl
  | cons a l ih =>
    rw [List.flatMap_cons, hf a (List.mem_cons_self ..),
      ih (fun a ha => hf a (List.mem_cons_of_mem _ ha))]
    cases hg : g a <;> simp [hg, List.filterMap_cons]

/-- The group's short puts that also parse under the put-leg pattern are
exactly the spec's short put legs: `symbol.includes("P")` is implied by a
successful put-leg parse. -/
lemma shortLegs_filter (ps : List SchwabPosition) :
    (shortPutsOf ps).filter isPutLeg =
      ps.filter (fun p => isPutLeg p && decide (0 < p.shortQuantity)) := by
  unfold shortPutsOf putsOf
  rw [List.filter_filter, List.filter_filter]
  refine List.filter_congr (fun p _ => ?_)
  cases hq : isPutLeg p
  · simp
  · obtain ⟨pm, hpm⟩ := Option.isSome_iff_exists.mp hq
    have hP : 'P' ∈ p.instrument.symbol.data := by
      simpa using contains_P_of_putLeg hpm
    simp [hP]

/-- The long-side counterpart of `shortLegs_filter`. -/
lemma longLegs_filter (ps : List SchwabPosition) :
    (longPutsOf ps).filter isPutLeg =
      ps.filter (fun p => isPutLeg p && decide (0 < p.longQuantity)) := by
  unfold longPutsOf putsOf
  rw [List.filter_filter, List.filter_filter]
  refine List.filter_congr (fun p _ => ?_)
  cases hq : isPutLeg p
  · simp
  · obtain ⟨pm, hpm⟩ := Option.isSome_iff_exists.mp hq
    have hP : 'P' ∈ p.instrument.symbol.data := by
      simpa using contains_P_of_putLeg hpm
    simp [hP]

/-- One expiry group: the code's loop emits exactly the spec's
one-Spread-per-valid-pair list. -/
lemma spreadsForGroup_eq_spec (symbol expiryKey : String)
    (ps : List SchwabPosition) :
    spreadsForGroup symbol expiryKey ps =
      specGroupSpreads symbol expiryKey ps := by
  unfold spreadsForGroup specGroupSpreads
  rw [flatMap_filter_eq (shortPutsOf ps) isPutLeg _ (fun a ha => ?_),
    shortLegs_filter]
  swap
  · unfold isPutLeg at ha
    cases hm : execPutLegRegex a.instrument.symbol
    · rfl
    · rw [hm] at ha; exact absurd ha (by simp)
  refine List.flatMap_congr (fun s hs => ?_)
  have hs' : isPutLeg s = true := by
    rw [List.mem_filter] at hs
    exact ((Bool.and_eq_true _ _).mp hs.2).1
  obtain ⟨sm, hsm⟩ := Option.isSome_iff_exists.mp hs'
  rw [hsm]
  simp only []
  rw [flatMap_filter_eq (longPutsOf ps) isPutLeg _ (fun a ha => ?_),
    longLegs_filter]
  swap
  · unfold isPutLeg at ha
    cases hm : execPutLegRegex a.instrument.symbol
    · rfl
    · rw [hm] at ha; exact absurd ha (by simp)
  refine flatMap_eq_filterMap _ _ _ (fun l hl => ?_)
  have hl' : isPutLeg l = true := by
    rw [List.mem_filter] at hl
    exact ((Bool.and_eq_true _ _).mp hl.2).1
  obtain ⟨lm, hlm⟩ := Option.isSome_iff_exists.mp hl'
  rw [hlm]
  unfold specPairSpread
  rw [hsm, hlm]
  simp only []
  by_cases hlt : (parseIntDigits lm.strikeDigits : ℚ) / 1000 <
      (parseIntDigits sm.strikeDigits : ℚ) / 1000 <;>
    simp [hlt]

/-- Unfolding one `insertGroup`: a member of any bucket was already in a
bucket, or is the inserted position. -/
lemma mem_insertGroup {key : String} {pos : SchwabPosition}
    {m : List (String × List SchwabPosition)}
    {g : String × List SchwabPosition} (hg : g ∈ insertGroup key pos m)
    {p : SchwabPosition} (hp : p ∈ g.2) :
    (∃ g0 ∈ m, p ∈ g0.2) ∨ p = pos := by
  induction m with
  | nil =>
    rw [insertGroup, List.mem_singleton] at hg
    subst hg
    rw [List.mem_singleton] at hp
    exact Or.inr hp
  | cons hd tl ih =>
    obtain ⟨k, ps⟩ := hd
    rw [insertGroup] at hg
    by_cases hk : k = key
    · rw [if_pos hk, List.mem_cons] at hg
      rcases hg with h | h
      · subst h
        rcases List.mem_append.mp hp with h2 | h2
        · exact Or.inl ⟨(k, ps), List.mem_cons_self .., h2⟩
        · rw [List.mem_singleton] at h2
          exact Or.inr h2
      · exact Or.inl ⟨g, List.mem_cons_of_mem _ h, hp⟩
    · rw [if_neg hk, List.mem_cons] at hg
      rcases hg with h | h
      · subst h
        exact Or.inl ⟨(k, ps), List.mem_cons_self .., hp⟩
      · rcases ih h with h2 | h2
        · obtain ⟨g0, hg0, hpg0⟩ := h2
          exact Or.inl ⟨g0, List.mem_cons_of_mem _ hg0, hpg0⟩
        · exact Or.inr h2

/-- Invariant of the grouping fold: a member of any resulting bucket was in
an initial bucket or is one of the folded positions. -/
lemma foldl_groupStep_mem (l : List SchwabPosition)
    {g : String × List SchwabPosition} {p : SchwabPosition} (hp : p ∈ g.2) :
    ∀ init : List (String × List SchwabPosition),
      g ∈ l.foldl groupStep init → (∃ g0 ∈ init, p ∈ g0.2) ∨ p ∈ l := by
  induction l with
  | nil =>
    intro init hinit
    exact Or.inl ⟨g, hinit, hp⟩
  | cons a l ih =>
    intro init hinit
    rw [List.foldl_cons] at hinit
    rcases ih (groupStep init a) hinit with h2 | h2
    · obtain ⟨g0, hg0, hpg0⟩ := h2
      revert hg0
      unfold groupStep
      cases hm : execOptionSymbolRegex a.instrument.symbol
      · intro hg0
        exact Or.inl ⟨g0, hg0, hpg0⟩
      · intro hg0
        rcases mem_insertGroup hg0 hpg0 with h3 | h3
        · obtain ⟨g1, hg1, hpg1⟩ := h3
          exact Or.inl ⟨g1, hg1, hpg1⟩
        · exact Or.inr (h3 ▸ List.mem_cons_self ..)
    · exact Or.inr (List.mem_cons_of_mem _ h2)

/-- Every member of an expiry-group bucket is one of the grouped
positions. -/
lemma mem_of_mem_groupByExpiry {l : List SchwabPosition}
    {g : String × List SchwabPosition} (hg : g ∈ groupByExpiry l)
    {p : SchwabPosition} (hp : p ∈ g.2) : p ∈ l := by
  rcases foldl_groupStep_mem l hp [] hg with ⟨g0, hg0, _⟩ | h2
  · exact absurd hg0 (List.not_mem_nil g0)
  · exact h2

/-!  Evaluation of the concrete scenarios.  The string-level stages (symbol
parsing, filtering, grouping) are settled by kernel computation; only the
rational arithmetic of the emitted records needs `norm_num`. -/

lemma putLeg_5900 : execPutLegRegex "SPX   241220P05900000" =
    some ⟨['2', '4', '1', '2', '2', '0'], ['0', '5', '9', '0', '0', '0', '0', '0']⟩ := by decide

lemma putLeg_5950 : execPutLegRegex "SPX   241220P05950000" =
    some ⟨['2', '4', '1', '2', '2', '0'], ['0', '5', '9', '5', '0', '0', '0', '0']⟩ := by decide

lemma putLeg_5850 : execPutLegRegex "SPX   241220P05850000" =
    some ⟨['2', '4', '1', '2', '2', '0'], ['0', '5', '8', '5', '0', '0', '0', '0']⟩ := by decide

lemma putLeg_5800 : execPutLegRegex "SPX   241220P05800000" =
    some ⟨['2', '4', '1', '2', '2', '0'], ['0', '5', '8', '0', '0', '0', '0', '0']⟩ := by decide

lemma strike_5900 : parseIntDigits ['0', '5', '9', '0', '0', '0', '0', '0'] = 5900000 := by decide

lemma strike_5950 : parseIntDigits ['0', '5', '9', '5', '0', '0', '0', '0'] = 5950000 := by decide

lemma strike_5850 : parseIntDigits ['0', '5', '8', '5', '0', '0', '0', '0'] = 5850000 := by decide

lemma strike_5800 : parseIntDigits ['0', '5', '8', '0', '0', '0', '0', '0'] = 5800000 := by decide

lemma expiry_241220 : parseExpiryDate "241220" = ⟨2024, 11, 20⟩ := by decide

/-- Scenario §8 (claims C5, C2, C9, C10): the instrumented reconstruction on
the two-leg account. -/
lemma spx_eval : legSpreads spxAccounts "SPX" =
    [⟨"241220", spxShortLeg, spxLongLeg, spxSpread⟩] := by
  have hfo : filterOptionPositions "SPX" [spxShortLeg, spxLongLeg] =
      [spxShortLeg, spxLongLeg] := rfl
  have hg : groupByExpiry [spxShortLeg, spxLongLeg] =
      [("241220", [spxShortLeg, spxLongLeg])] := rfl
  have hsp : shortPutsOf [spxShortLeg, spxLongLeg] = [spxShortLeg] := rfl
  have hlp : longPutsOf [spxShortLeg, spxLongLeg] = [spxLongLeg] := rfl
  unfold legSpreads spxAccounts accountLegSpreads
  rw [List.flatMap_cons, List.flatMap_nil, List.append_nil, hfo, hg,
    List.flatMap_cons, List.flatMap_nil, List.append_nil]
  unfold legSpreadsForGroup
  rw [hsp, hlp, List.flatMap_cons, List.flatMap_nil]
  simp only [spxShortLeg, spxLongLeg, putLeg_5900, putLeg_5800, strike_5900,
    strike_5800, List.flatMap_cons, List.flatMap_nil, List.append_nil,
    expiry_241220, spxSpread]
  rw [if_pos (by norm_num :
    ((5800000 : ℕ) : ℚ) / 1000 < ((5900000 : ℕ) : ℚ) / 1000)]
  norm_num

/-- Scenario of claim C6: the instrumented reconstruction on the account
with two short legs and one long leg. -/
lemma spx2_eval : legSpreads spxAccounts2 "SPX" =
    [⟨"241220", spxShortLeg, spxLongLeg, spxSpread⟩,
     ⟨"241220", spxShortLeg2, spxLongLeg, spxSpread2⟩] := by
  have hfo : filterOptionPositions "SPX" [spxShortLeg, spxShortLeg2, spxLongLeg] =
      [spxShortLeg, spxShortLeg2, spxLongLeg] := rfl
  have hg : groupByExpiry [spxShortLeg, spxShortLeg2, spxLongLeg] =
      [("241220", [spxShortLeg, spxShortLeg2, spxLongLeg])] := rfl
  have hsp : shortPutsOf [spxShortLeg, spxShortLeg2, spxLongLeg] =
      [spxShortLeg, spxShortLeg2] := rfl
  have hlp : longPutsOf [spxShortLeg, spxShortLeg2, spxLongLeg] =
      [spxLongLeg] := rfl
  unfold legSpreads spxAccounts2 accountLegSpreads
  rw [List.flatMap_cons, List.flatMap_nil, List.append_nil, hfo, hg,
    List.flatMap_cons, List.flatMap_nil, List.append_nil]
  unfold legSpreadsForGroup
  rw [hsp, hlp, List.flatMap_cons, List.flatMap_cons, List.flatMap_nil]
  simp only [spxShortLeg, spxShortLeg2, spxLongLeg, putLeg_5900, putLeg_5950,
    putLeg_5800, strike_5900, strike_5950, strike_5800, List.flatMap_cons,
    List.flatMap_nil, List.append_nil, expiry_241220, spxSpread, spxSpread2]
  rw [if_pos (by norm_num :
      ((5800000 : ℕ) : ℚ) / 1000 < ((5900000 : ℕ) : ℚ) / 1000),
    if_pos (by norm_num :
      ((5800000 : ℕ) : ℚ) / 1000 < ((5950000 : ℕ) : ℚ) / 1000)]
  norm_num

/-- Scenario of claim C8: the instrumented reconstruction on the account
containing the dual-role (short and long) position at strike 5850. -/
lemma spx3_eval : legSpreads spxAccounts3 "SPX" =
    [⟨"241220", spxShortLeg, spxDualLeg, spxSpreadAB⟩,
     ⟨"241220", spxShortLeg, spxLongLeg, spxSpread⟩,
     ⟨"241220", spxDualLeg, spxLongLeg, spxSpreadBC⟩] := by
  have hfo : filterOptionPositions "SPX" [spxShortLeg, spxDualLeg, spxLongLeg] =
      [spxShortLeg, spxDualLeg, spxLongLeg] := rfl
  have hg : groupByExpiry [spxShortLeg, spxDualLeg, spxLongLeg] =
      [("241220", [spxShortLeg, spxDualLeg, spxLongLeg])] := rfl
  have hsp : shortPutsOf [spxShortLeg, spxDualLeg, spxLongLeg] =
      [spxShortLeg, spxDualLeg] := rfl
  have hlp : longPutsOf [spxShortLeg, spxDualLeg, spxLongLeg] =
      [spxDualLeg, spxLongLeg] := rfl
  unfold legSpreads spxAccounts3 accountLegSpreads
  rw [List.flatMap_cons, List.flatMap_nil, List.append_nil, hfo, hg,
    List.flatMap_cons, List.flatMap_nil, List.append_nil]
  unfold legSpreadsForGroup
  rw [hsp, hlp, List.flatMap_cons, List.flatMap_cons, List.flatMap_nil]
  simp only [spxShortLeg, spxDualLeg, spxLongLeg, putLeg_5900, putLeg_5850,
    putLeg_5800, strike_5900, strike_5850, strike_5800, List.flatMap_cons,
    List.flatMap_nil, List.append_nil, expiry_241220, spxSpread, spxSpreadAB,
    spxSpreadBC]
  rw [if_pos (by norm_num :
      ((5850000 : ℕ) : ℚ) / 1000 < ((5900000 : ℕ) : ℚ) / 1000),
    if_pos (by norm_num :
      ((5800000 : ℕ) : ℚ) / 1000 < ((5900000 : ℕ) : ℚ) / 1000),
    if_neg (by norm_num :
      ¬ ((5850000 : ℕ) : ℚ) / 1000 < ((5850000 : ℕ) : ℚ) / 1000),
    if_pos (by norm_num :
      ((5800000 : ℕ) : ℚ) / 1000 < ((5850000 : ℕ) : ℚ) / 1000)]
  norm_num

/-!  The claims. -/

/-- Claim C1: for every short put leg (`shortQuantity > 0`) and long put leg
(`longQuantity > 0`) of the same expiry group whose strikes satisfy
`longStrike < shortStrike`, `getPutCreditSpreads` emits exactly one Spread
for that pair, with `quantity = min(short.shortQuantity, long.longQuantity)`,
`credit = short.averagePrice - long.averagePrice` and
`theoreticalMaxLossPts = (shortStrike - longStrike) - credit`: the code's
output coincides with the spec-side one-Spread-per-valid-pair enumeration
`specReconstruct`. -/
theorem pair_spread_semantics (accounts : List SchwabAccount)
    (symbol : String) :
    getPutCreditSpreads accounts symbol = specReconstruct accounts symbol := by
  unfold getPutCreditSpreads specReconstruct
  refine List.flatMap_congr (fun account _ => ?_)
  unfold accountSpreads
  exact List.flatMap_congr (fun g _ => spreadsForGroup_eq_spec symbol g.1 g.2)

/-- Claim C2: strict strike inequality — every Spread in the output of
`getPutCreditSpreads` has `longStrike` strictly less than `shortStrike`, so
a pair whose long strike is greater than or equal to the short strike
produces no Spread. -/
theorem strict_strike_invariant (accounts : List SchwabAccount)
    (symbol : String) (s : PutCreditSpread)
    (hs : s ∈ getPutCreditSpreads accounts symbol) :
    s.longStrike < s.shortStrike := by
  rw [spreads_eq_legSpreads] at hs
  obtain ⟨t, ht, rfl⟩ := List.mem_map.mp hs
  obtain ⟨account, _, g, _, htg⟩ := mem_legSpreads ht
  obtain ⟨_, _, sm, lm, _, _, _, hlt, hspread⟩ := mem_legSpreadsForGroup htg
  rw [hspread]
  exact hlt

/-- Witness for C2 at the §8 scenario: the emitted Spread has
`longStrike 5800 < shortStrike 5900`. -/
theorem strict_strike_invariant_witness :
    spxSpread.longStrike < spxSpread.shortStrike :=
  strict_strike_invariant spxAccounts "SPX" spxSpread
    (by rw [spreads_eq_legSpreads, spx_eval]; simp)

/-- Claim C3: call-side legs never appear in the output: the output of
`getPutCreditSpreads` is the projection of the instrumented leg-recording
run, and no recorded entry has a call option (a symbol whose
`/^(\w+)\s*(\d{6})([PC])(\d+)$/` marker capture is `C`) as its short or
long leg — including calls whose underlying ticker contains the letter `P`,
since every emitted leg's symbol matches the put-leg pattern, which forces
the marker to be `P`. -/
theorem calls_never_in_output (accounts : List SchwabAccount)
    (symbol : String) :
    getPutCreditSpreads accounts symbol =
        (legSpreads accounts symbol).map SpreadLeg.spread ∧
      ∀ t ∈ legSpreads accounts symbol,
        isCallOption t.shortLeg = false ∧ isCallOption t.longLeg = false := by
  refine ⟨spreads_eq_legSpreads accounts symbol, fun t ht => ?_⟩
  obtain ⟨account, _, g, _, htg⟩ := mem_legSpreads ht
  obtain ⟨_, _, sm, lm, hsm, hlm, _, _, _⟩ := mem_legSpreadsForGroup htg
  constructor
  · unfold isCallOption
    cases ho : execOptionSymbolRegex t.shortLeg.instrument.symbol
    · rfl
    · rename_i om
      have hmark := marker_P_of_putLeg hsm ho
      simp [hmark]
  · unfold isCallOption
    cases ho : execOptionSymbolRegex t.longLeg.instrument.symbol
    · rfl
    · rename_i om
      have hmark := marker_P_of_putLeg hlm ho
      simp [hmark]

/-- Claim C4: the reconstruction never raises an error (the embedding is a
total function on every account and position list), and a position that is
not option-typed or whose symbol does not match the fixed encoding pattern
is silently excluded, contributing nothing: deleting it from any account's
position list leaves the output unchanged. -/
theorem malformed_positions_inert (accounts1 accounts2 : List SchwabAccount)
    (pre post : List SchwabPosition) (p : SchwabPosition) (symbol : String)
    (h : p.instrument.assetType ≠ "OPTION" ∨
        execOptionSymbolRegex p.instrument.symbol = none) :
    getPutCreditSpreads (accounts1 ++ ⟨⟨pre ++ p :: post⟩⟩ :: accounts2)
        symbol =
      getPutCreditSpreads (accounts1 ++ ⟨⟨pre ++ post⟩⟩ :: accounts2)
        symbol := by
  have hacc : accountSpreads symbol ⟨⟨pre ++ p :: post⟩⟩ =
      accountSpreads symbol ⟨⟨pre ++ post⟩⟩ := by
    unfold accountSpreads
    suffices hgr : groupByExpiry (filterOptionPositions symbol
          (pre ++ p :: post)) =
        groupByExpiry (filterOptionPositions symbol (pre ++ post)) by
      rw [hgr]
    unfold filterOptionPositions
    rw [List.filter_append, List.filter_append, List.filter_cons]
    cases hc : (p.instrument.assetType == "OPTION" &&
        p.instrument.underlyingSymbol == some symbol)
    · rfl
    · have hregex : execOptionSymbolRegex p.instrument.symbol = none := by
        rcases h with h | h
        · exact absurd (by simpa using ((Bool.and_eq_true _ _).mp hc).1) h
        · exact h
      rw [if_pos rfl]
      unfold groupByExpiry
      rw [List.foldl_append, List.foldl_append, List.foldl_cons]
      have hstep : ∀ m, groupStep m p = m := by
        intro m
        unfold groupStep
        rw [hregex]
      rw [hstep]
  unfold getPutCreditSpreads
  rw [List.flatMap_append, List.flatMap_cons, List.flatMap_append,
    List.flatMap_cons, hacc]

/-- Witness for C4: inserting an option position with the unparseable symbol
`SPX-BAD` between the two legs of the §8 scenario leaves the output
unchanged. -/
theorem malformed_positions_inert_witness :
    getPutCreditSpreads [⟨⟨[spxShortLeg, spxBadLeg, spxLongLeg]⟩⟩] "SPX" =
      getPutCreditSpreads [⟨⟨[spxShortLeg, spxLongLeg]⟩⟩] "SPX" :=
  malformed_positions_inert [] [] [spxShortLeg] [spxLongLeg] spxBadLeg "SPX"
    (Or.inr (by decide))

/-- Claim C5: the §8 concrete scenario — underlying `SPX`, short leg
`SPX   241220P05900000` (shortQuantity 1, averagePrice 12.50) and long leg
`SPX   241220P05800000` (longQuantity 1, averagePrice 7.00) — produces
exactly one Spread with shortStrike 5900, longStrike 5800, credit 5.50,
quantity 1 and theoreticalMaxLossPts 94.50. -/
theorem spx_concrete_scenario :
    getPutCreditSpreads spxAccounts "SPX" =
      [{ underlying := "SPX", expiry := ⟨2024, 11, 20⟩, shortStrike := 5900,
         longStrike := 5800, credit := 5.50, quantity := 1,
         theoreticalMaxLossPts := 94.50 }] := by
  rw [spreads_eq_legSpreads, spx_eval]
  rfl

/-- Claim C6: Cartesian pairing — with two short put legs (strikes 5900 and
5950) and one long put leg (strike 5800) on the same underlying and expiry
code, exactly two Spreads are emitted, one per short leg, each generated
against the same long leg position and each with quantity
`min(short.shortQuantity, long.longQuantity)` computed against that long
leg's quantity. -/
theorem cartesian_pairing :
    legSpreads spxAccounts2 "SPX" =
        [⟨"241220", spxShortLeg, spxLongLeg, spxSpread⟩,
         ⟨"241220", spxShortLeg2, spxLongLeg, spxSpread2⟩] ∧
      getPutCreditSpreads spxAccounts2 "SPX" = [spxSpread, spxSpread2] := by
  refine ⟨spx2_eval, ?_⟩
  rw [spreads_eq_legSpreads, spx2_eval]
  rfl

/-- Claim C7: an input with no option-typed position produces the empty
output, for any target underlying symbol. -/
theorem no_option_positions_empty (accounts : List SchwabAccount)
    (symbol : String)
    (h : ∀ account ∈ accounts, ∀ p ∈ account.securitiesAccount.positions,
        p.instrument.assetType ≠ "OPTION") :
    getPutCreditSpreads accounts symbol = [] := by
  unfold getPutCreditSpreads
  rw [List.flatMap_eq_nil_iff]
  intro account ha
  unfold accountSpreads
  have hfil : filterOptionPositions symbol
      account.securitiesAccount.positions = [] := by
    unfold filterOptionPositions
    rw [List.filter_eq_nil_iff]
    intro pos hp
    have hne := h account ha pos hp
    simp [hne]
  rw [hfil]
  rfl

/-- Witness for C7: an account holding only an equity position produces no
spreads. -/
theorem no_option_positions_empty_witness :
    getPutCreditSpreads equityAccounts "SPX" = [] :=
  no_option_positions_empty equityAccounts "SPX" (by decide)

/-- Claim C8: a put position with both `shortQuantity > 0` and
`longQuantity > 0` is counted in both the short-leg set and the long-leg set
of its expiry group (first conjunct), and such a position can serve as the
short leg of one emitted Spread and as the long leg of another within the
same call: in the C8 scenario, the dual-role 5850 position is the long leg
of the recorded 5900/5850 entry and the short leg of the recorded 5850/5800
entry. -/
theorem dual_role_position :
    (∀ (ps : List SchwabPosition) (p : SchwabPosition), p ∈ ps →
        p.instrument.symbol.data.contains 'P' = true →
        0 < p.shortQuantity → 0 < p.longQuantity →
        p ∈ shortPutsOf ps ∧ p ∈ longPutsOf ps) ∧
      (∃ t ∈ legSpreads spxAccounts3 "SPX", t.shortLeg = spxDualLeg) ∧
      (∃ t ∈ legSpreads spxAccounts3 "SPX", t.longLeg = spxDualLeg) := by
  refine ⟨fun ps p hmem hP hs hl => ?_, ?_, ?_⟩
  · constructor
    · unfold shortPutsOf putsOf
      exact List.mem_filter.mpr
        ⟨List.mem_filter.mpr ⟨hmem, hP⟩, decide_eq_true hs⟩
    · unfold longPutsOf putsOf
      exact List.mem_filter.mpr
        ⟨List.mem_filter.mpr ⟨hmem, hP⟩, decide_eq_true hl⟩
  · refine ⟨⟨"241220", spxDualLeg, spxLongLeg, spxSpreadBC⟩, ?_, rfl⟩
    rw [spx3_eval]
    exact List.mem_cons_of_mem _ (List.mem_cons_of_mem _
      (List.mem_cons_self ..))
  · refine ⟨⟨"241220", spxShortLeg, spxDualLeg, spxSpreadAB⟩, ?_, rfl⟩
    rw [spx3_eval]
    exact List.mem_cons_self ..

/-- Claim C9: every emitted Spread's expiry is decoded from the 6-digit
YYMMDD expiry code of its group at emission time — year 2000 plus the first
two digits, zero-indexed month index equal to the next two digits minus one,
day equal to the last two digits — as the argument record of the local-time
constructor `new Date(year, month, day)`. -/
theorem expiry_decoded_from_key (accounts : List SchwabAccount)
    (symbol : String) (t : SpreadLeg) (ht : t ∈ legSpreads accounts symbol) :
    t.spread.expiry =
      ⟨2000 + (parseIntDigits (t.expiryKey.data.take 2) : Int),
       (parseIntDigits ((t.expiryKey.data.drop 2).take 2) : Int) - 1,
       (parseIntDigits ((t.expiryKey.data.drop 4).take 2) : Int)⟩ := by
  obtain ⟨account, _, g, _, htg⟩ := mem_legSpreads ht
  obtain ⟨_, _, sm, lm, _, _, hkey, _, hspread⟩ := mem_legSpreadsForGroup htg
  rw [hspread, hkey]
  rfl

/-- Witness for C9 at the §8 scenario: the recorded entry's expiry is the
decoding of its key `241220`. -/
theorem expiry_decoded_from_key_witness :
    (⟨"241220", spxShortLeg, spxLongLeg, spxSpread⟩ : SpreadLeg).spread.expiry =
      ⟨2000 + (parseIntDigits ("241220".data.take 2) : Int),
       (parseIntDigits (("241220".data.drop 2).take 2) : Int) - 1,
       (parseIntDigits (("241220".data.drop 4).take 2) : Int)⟩ :=
  expiry_decoded_from_key spxAccounts "SPX"
    ⟨"241220", spxShortLeg, spxLongLeg, spxSpread⟩
    (by rw [spx_eval]; exact List.mem_cons_self ..)

/-- Claim C10 (implicit): legs are paired only within a single account's
position list — both generating legs of every recorded entry are members of
the position list of one and the same account, so a short put in one account
is never paired with a long put residing in a different account. -/
theorem legs_from_one_account (accounts : List SchwabAccount)
    (symbol : String) (t : SpreadLeg) (ht : t ∈ legSpreads accounts symbol) :
    ∃ account ∈ accounts,
      t.shortLeg ∈ account.securitiesAccount.positions ∧
        t.longLeg ∈ account.securitiesAccount.positions := by
  obtain ⟨account, ha, g, hgm, htg⟩ := mem_legSpreads ht
  obtain ⟨hsl, hll, _⟩ := mem_legSpreadsForGroup htg
  refine ⟨account, ha, ?_, ?_⟩
  · have h1 : t.shortLeg ∈ g.2 := by
      unfold shortPutsOf putsOf at hsl
      exact List.mem_of_mem_filter (List.mem_of_mem_filter hsl)
    have h2 := mem_of_mem_groupByExpiry hgm h1
    unfold filterOptionPositions at h2
    exact List.mem_of_mem_filter h2
  · have h1 : t.longLeg ∈ g.2 := by
      unfold longPutsOf putsOf at hll
      exact List.mem_of_mem_filter (List.mem_of_mem_filter hll)
    have h2 := mem_of_mem_groupByExpiry hgm h1
    unfold filterOptionPositions at h2
    exact List.mem_of_mem_filter h2

/-- Witness for C10 at the §8 scenario: the one recorded entry's legs both
come from the single account. -/
theorem legs_from_one_account_witness :
    ∃ account ∈ spxAccounts,
      spxShortLeg ∈ account.securitiesAccount.positions ∧
        spxLongLeg ∈ account.securitiesAccount.positions :=
  legs_from_one_account spxAccounts "SPX"
    ⟨"241220", spxShortLeg, spxLongLeg, spxSpread⟩
    (by rw [spx_eval]; exact List.mem_cons_self ..)

end Schwab
